import Mathlib

/-!
Shallow embedding of `pyapollo/apollo_client.py` and `pyapollo/exceptions.py`
(ikool-cn/python-apollo-client): a client-side configuration cache
synchronizer.  Python dicts are modelled as association lists, JSON values as
an inductive type, raised exceptions as an explicit error component, and the
external collaborators (the HTTP transport, `json.loads`, `str(time.time())`)
as an explicit environment.  State mutated by a procedure is threaded
explicitly; a procedure that can raise returns the state at the moment the
exception escapes together with the exception.
-/

namespace Pyapollo

/-- A JSON value, as produced by Python's `json.loads`.  Number literals are
restricted to integers; no claim depends on float decoding.  A Python `None`
is identified with `JVal.null` (the JSON null). -/
inductive JVal where
  | obj : List (String × JVal) → JVal
  | arr : List JVal → JVal
  | str : String → JVal
  | num : Int → JVal
  | bool : Bool → JVal
  | null : JVal

mutual
/-- Python `==` on the values this program handles (structural equality of
JSON-shaped data, with `None` as `null`).  Used both for dict key lookup and
for the release-key comparison in `_update_local_cache`. -/
def jvalEq : JVal → JVal → Bool
  | .obj a, .obj b => jfieldsEq a b
  | .arr a, .arr b => jelemsEq a b
  | .str a, .str b => a == b
  | .num a, .num b => a == b
  | .bool a, .bool b => a == b
  | .null, .null => true
  | _, _ => false
def jfieldsEq : List (String × JVal) → List (String × JVal) → Bool
  | [], [] => true
  | (k1, v1) :: r1, (k2, v2) :: r2 => k1 == k2 && jvalEq v1 v2 && jfieldsEq r1 r2
  | _, _ => false
def jelemsEq : List JVal → List JVal → Bool
  | [], [] => true
  | v1 :: r1, v2 :: r2 => jvalEq v1 v2 && jelemsEq r1 r2
  | _, _ => false
end

/-- The exception kinds the embedded code can raise.  `nameSpaceNotFound` and
`serverNotResponse` are the two `BasicException` subclasses from
`pyapollo/exceptions.py`; the rest are the relevant Python built-ins. -/
inductive Exc where
  | nameSpaceNotFound
  | serverNotResponse
  | jsonDecodeError
  | typeError
  | keyError
  | attributeError
  | connectionError
deriving DecidableEq

/-- Whether `except Exception` catches this exception.  `BasicException`
derives from `BaseException` directly (exceptions.py line 5), so the two
custom exceptions are *not* `Exception` instances. -/
def Exc.isException : Exc → Bool
  | .nameSpaceNotFound => false
  | .serverNotResponse => false
  | _ => true

/-- Whether `except BasicException` catches this exception. -/
def Exc.isBasicException : Exc → Bool
  | .nameSpaceNotFound => true
  | .serverNotResponse => true
  | _ => false

/-- Python `str(e)`.  `BasicException.__str__` evaluates `self.__name__`
(exceptions.py line 11), an attribute instances do not have, so converting
either custom exception to a string raises `AttributeError`.  The built-in
exceptions stringify normally; the text itself is never used by the code. -/
def strOfExc : Exc → Except Exc String
  | .nameSpaceNotFound => .error .attributeError
  | .serverNotResponse => .error .attributeError
  | _ => .ok "err"

/-- Lookup in a JSON object (Python `dict` with string keys): first match. -/
def jGet : List (String × JVal) → String → Option JVal
  | [], _ => none
  | (k, v) :: rest, key => if k = key then some v else jGet rest key

/-- Python `d.get(key, default)` on a JSON object. -/
def jGetD (m : List (String × JVal)) (key : String) (d : JVal) : JVal :=
  (jGet m key).getD d

/-- Lookup in a Python dict keyed by arbitrary values (`self._cache`,
`self._hash`, `self._notification_map`): first match. -/
def pyGet : List (JVal × JVal) → JVal → Option JVal
  | [], _ => none
  | (k, v) :: rest, key => if jvalEq k key then some v else pyGet rest key

/-- Python `d.get(key, default)` on such a dict (`d.get(key)` is
`pyGetD d key .null`, since a missing key yields `None`). -/
def pyGetD (m : List (JVal × JVal)) (key : JVal) (d : JVal) : JVal :=
  (pyGet m key).getD d

/-- Python `d[key] = v`: replace in place if the key is present, else append
(insertion order is preserved, as in a Python dict). -/
def pyUpdate : List (JVal × JVal) → JVal → JVal → List (JVal × JVal)
  | [], key, v => [(key, v)]
  | (k, w) :: rest, key, v =>
      if jvalEq k key then (key, v) :: rest else (k, w) :: pyUpdate rest key v

/-- The on-disk cache directory: file name to file content, in directory
listing order, together with a count of performed file writes (the
write-count instrumentation the spec's testable properties refer to). -/
structure FileSys where
  files : List (String × String)
  writeCount : Nat
deriving DecidableEq

/-- Content of a file, if present (`os.path.isfile` + `open(..., "r")`). -/
def lookupFile : List (String × String) → String → Option String
  | [], _ => none
  | (n, c) :: rest, name => if n = name then some c else lookupFile rest name

/-- Replace a file's content in place, or create the file. -/
def writeEntry : List (String × String) → String → String → List (String × String)
  | [], name, content => [(name, content)]
  | (n, c) :: rest, name, content =>
      if n = name then (name, content) :: rest
      else (n, c) :: writeEntry rest name content

/-- Write (`open(path, "w")` followed by `f.write`): updates the entry and
counts one write. -/
def writeFile (fs : FileSys) (name content : String) : FileSys :=
  ⟨writeEntry fs.files name content, fs.writeCount + 1⟩

/-- The mutable fields of `ApolloClient` that the synchronization code
touches: `self._cache`, `self._hash`, `self._notification_map`, and the cache
directory. -/
structure PassState where
  cache : List (JVal × JVal)
  hash : List (JVal × JVal)
  notification_map : List (JVal × JVal)
  fs : FileSys

/-- Result of the reachability probe `Telnet(host, port, timeout)` performed
by `_http_get` after a read timeout. -/
inductive ProbeOutcome where
  | connected
  | refused
  | failed : Exc → ProbeOutcome
deriving DecidableEq

/-- Outcome of one `requests.get` call, as dictated by the environment:
a delivered response (with the outcome of `r.json()` as its body), a
`ReadTimeout` (bundled with the outcome of the subsequent Telnet probe), or
any other raised exception (e.g. `requests.exceptions.ConnectionError`). -/
inductive ReqOutcome where
  | resp : Nat → Except Exc JVal → ReqOutcome
  | timeoutThenProbe : ProbeOutcome → ReqOutcome
  | raised : Exc → ReqOutcome

/-- A delivered HTTP response: `r.status_code` and the result of `r.json()`. -/
structure HttpResponse where
  status : Nat
  body : Except Exc JVal

/-- The external collaborators, fixed for one synchronization pass:
`json.loads` on strings, the outcome of the namespace-listing request, the
outcome of the release request per namespace, and `str(time.time())`. -/
structure Env where
  loads : String → Except Exc JVal
  listReq : ReqOutcome
  releaseReq : JVal → ReqOutcome
  timeStr : String

/-- `_http_get` (apollo_client.py lines 191-220): returns the response, or
raises.  On `ReadTimeout` it probes the server with Telnet: a successful
connection raises `NameSpaceNotFoundException`, a refused connection raises
`ServerNotResponseException`, and any other probe failure propagates (the
inner `try` catches only `ConnectionRefusedError`). -/
def http_get : ReqOutcome → Except Exc HttpResponse
  | .resp s b => .ok ⟨s, b⟩
  | .raised e => .error e
  | .timeoutThenProbe .connected => .error .nameSpaceNotFound
  | .timeoutThenProbe .refused => .error .serverNotResponse
  | .timeoutThenProbe (.failed e) => .error e

/-- `json.loads` applied to an arbitrary Python value: a non-string argument
raises `TypeError`. -/
def loadsJson (env : Env) : JVal → Except Exc JVal
  | .str s => env.loads s
  | _ => .error .typeError

/-- Python iteration over the value returned by `r.json()` in
`_get_namespaces`: a list yields its elements, a dict yields its keys,
a string yields its one-character substrings, anything else raises
`TypeError`. -/
def iterElems : JVal → Except Exc (List JVal)
  | .arr l => .ok l
  | .obj m => .ok (m.map (fun p => JVal.str p.1))
  | .str s => .ok (s.toList.map (fun c => JVal.str (String.mk [c])))
  | _ => .error .typeError

/-- The dict comprehension in `_get_namespaces` (line 106):
each element must support `.get` (be a dict), else `AttributeError`. -/
def nsMapFold : List JVal → List (JVal × JVal) → Except Exc (List (JVal × JVal))
  | [], acc => .ok acc
  | e :: rest, acc =>
      match e with
      | .obj m =>
          nsMapFold rest (pyUpdate acc (jGetD m "namespaceName" .null) (jGetD m "id" .null))
      | _ => .error .attributeError

/-- `_get_namespaces` (lines 97-108): status 200 yields the comprehension over
the JSON body; any other delivered status yields the sentinel
`{"application": -1}`.  There is no `try` in this method: a raised transport
exception propagates to the caller. -/
def get_namespaces (env : Env) : Except Exc (List (JVal × JVal)) :=
  match http_get env.listReq with
  | .error e => .error e
  | .ok r =>
      if r.status = 200 then
        match r.body with
        | .error e => .error e
        | .ok j =>
            match iterElems j with
            | .error e => .error e
            | .ok l => nsMapFold l []
      else .ok [(.str "application", .num (-1))]

/-- Python `str()` as used when interpolating the namespace into the cache
file name; exact for the string, `None`, bool and int cases.  The dict/list
renderings are abbreviated: no call site formats a container namespace and no
claim depends on them. -/
def pyStr : JVal → String
  | .str s => s
  | .null => "None"
  | .bool true => "True"
  | .bool false => "False"
  | .num n => toString n
  | .obj _ => "dict"
  | .arr _ => "list"

/-- The cache file name `"%s_configuration_%s.txt" % (self.app_id, namespace)`
(lines 242 and 253). -/
def cacheFileName (appId : String) (ns : JVal) : String :=
  appId ++ "_configuration_" ++ pyStr ns ++ ".txt"

/-- Python `f.readline()`: the prefix of the content up to and including the
first newline, or the whole content when there is none. -/
def takeLine : List Char → List Char
  | [] => []
  | c :: cs => if c = '\n' then [c] else c :: takeLine cs

/-- `f.readline()` on a whole file content. -/
def readline (s : String) : String :=
  ⟨takeLine s.toList⟩

/-- Position of the last dot of a file name (as the length of the stem
before it): the characters after the last dot are exactly the ones an
initial reversed `takeWhile` keeps. -/
def splitextIdx (cs : List Char) : Nat :=
  cs.length - (cs.reverse.takeWhile (fun c => c ≠ '.')).length - 1

/-- `os.path.splitext` for plain file names (no path separators occur in the
names this code builds): splits at the last dot, unless the name has no dot
or only leading dots. -/
def splitext (s : String) : String × String :=
  if (s.toList.reverse.takeWhile (fun c => c ≠ '.')).length = s.toList.length then (s, "")
  else if (s.toList.take (splitextIdx s.toList)).any (fun c => c ≠ '.') then
    (⟨s.toList.take (splitextIdx s.toList)⟩, ⟨s.toList.drop (splitextIdx s.toList)⟩)
  else (s, "")

/-- Python `name.split("_")[-1]`: the suffix after the last underscore (the
whole string when it has none). -/
def lastTok (s : String) : String :=
  ⟨(s.toList.reverse.takeWhile (fun c => c ≠ '_')).reverse⟩

/-- `_get_local_cache_by_namespace` (lines 246-258): if the cache file exists,
parse its *first line* (`f.readline()`); a parse failure propagates, there is
no handler.  A missing file yields the empty dict. -/
def get_local_cache_by_namespace (env : Env) (appId : String) (fs : FileSys)
    (ns : JVal) : Except Exc JVal :=
  match lookupFile fs.files (cacheFileName appId ns) with
  | some content => env.loads (readline content)
  | none => .ok (.obj [])

/-- `_update_local_cache` (lines 230-244): writes the raw configuration
string only when the release key differs (under Python `!=`) from the one
last recorded in `self._hash` for this namespace (`None`, i.e. `null`, when
none was recorded); then records the key.  `f.write` of a non-string raises
`TypeError` after `open(..., "w")` has already truncated the file.  Returns
the new `_hash`, the new file system, and the escaping exception if any. -/
def update_local_cache (appId : String) (release_key : JVal) (data : JVal)
    (ns : JVal) (hash : List (JVal × JVal)) (fs : FileSys) :
    List (JVal × JVal) × FileSys × Option Exc :=
  if jvalEq (pyGetD hash ns .null) release_key then (hash, fs, none)
  else
    match data with
    | .str s =>
        (pyUpdate hash ns release_key, writeFile fs (cacheFileName appId ns) s, none)
    | _ => (hash, writeFile fs (cacheFileName appId ns) "", some .typeError)

/-- The `try` body of `_get_config_by_namespace` (lines 117-136).  On a 200
response: `r.json()` must be a dict (else `.get` raises `AttributeError`);
the decoded configurations replace `self._cache[namespace]`; then the logging
call evaluates `data["releaseKey"]` (a `KeyError` when absent escapes with
the cache already updated); then the write-through runs.  On any other
status: the local cache is read (a parse error escapes) and replaces
`self._cache[namespace]`. -/
def get_config_body (env : Env) (appId : String) (ns : JVal) (st : PassState) :
    PassState × Option Exc :=
  match http_get (env.releaseReq ns) with
  | .error e => (st, some e)
  | .ok r =>
      if r.status = 200 then
        match r.body with
        | .error e => (st, some e)
        | .ok data =>
            match data with
            | .obj dmap =>
                match loadsJson env (jGetD dmap "configurations" (.str "\x7b\x7d")) with
                | .error e => (st, some e)
                | .ok snap =>
                    let st1 := { st with cache := pyUpdate st.cache ns snap }
                    match jGet dmap "releaseKey" with
                    | none => (st1, some .keyError)
                    | some _ =>
                        match update_local_cache appId
                            (jGetD dmap "releaseKey" (.str env.timeStr))
                            (jGetD dmap "configurations" (.obj [])) ns st1.hash st1.fs with
                        | (h2, fs2, e2) => ({ st1 with hash := h2, fs := fs2 }, e2)
            | _ => (st, some .attributeError)
      else
        match get_local_cache_by_namespace env appId st.fs ns with
        | .error e => (st, some e)
        | .ok d => ({ st with cache := pyUpdate st.cache ns d }, none)

/-- `_get_config_by_namespace` (lines 110-141).  The `except BaseException`
handler catches everything the body raises, but first evaluates `str(e)`
(which itself raises `AttributeError` for the two custom exceptions) and then
reads the local cache (whose parse error escapes the method). -/
def get_config_by_namespace (env : Env) (appId : String) (ns : JVal)
    (st : PassState) : PassState × Option Exc :=
  match get_config_body env appId ns st with
  | (st1, none) => (st1, none)
  | (st1, some e) =>
      match strOfExc e with
      | .error e2 => (st1, some e2)
      | .ok _ =>
          match get_local_cache_by_namespace env appId st1.fs ns with
          | .error e3 => (st1, some e3)
          | .ok d => ({ st1 with cache := pyUpdate st1.cache ns d }, none)

/-- The scan of `_read_from_local_cache_file` (lines 279-287) over the
directory listing: skip `.swp` files, derive the namespace from the file
name's stem (`split("_")[-1]`), and parse the *whole* content (`f.read()`).
A parse failure escapes immediately: there is no handler in this method. -/
def readAllLoop (env : Env) :
    List (String × String) → List (JVal × JVal) → List (JVal × JVal) × Option Exc
  | [], cache => (cache, none)
  | (name, content) :: rest, cache =>
      if (splitext name).2 = ".swp" then readAllLoop env rest cache
      else
        match env.loads content with
        | .ok v => readAllLoop env rest (pyUpdate cache (.str (lastTok (splitext name).1)) v)
        | .error e => (cache, some e)

/-- `_read_from_local_cache_file` (lines 273-288). -/
def read_from_local_cache_file (env : Env) (st : PassState) : PassState × Option Exc :=
  match readAllLoop env st.fs.files st.cache with
  | (c, e) => ({ st with cache := c }, e)

/-- The `for namespace in self._notification_map.keys()` loop of
`_read_from_server` (lines 267-268): namespaces are fetched sequentially; an
exception escaping `_get_config_by_namespace` aborts the remainder of the
loop. -/
def runNamespaceLoop (env : Env) (appId : String) :
    List JVal → PassState → PassState × Option Exc
  | [], st => (st, none)
  | ns :: rest, st =>
      match get_config_by_namespace env appId ns st with
      | (st1, none) => runNamespaceLoop env appId rest st1
      | (st1, some e) => (st1, some e)

/-- The `except Exception` handler of `_read_from_server` (lines 269-271):
only exceptions deriving from `Exception` are caught (the two custom
`BasicException`s derive from `BaseException` directly and pass through);
for a caught exception, `str(e)` is evaluated for logging and then the full
local-cache scan runs (whose own failure escapes the method). -/
def serverExcHandler (env : Env) (e : Exc) (st : PassState) : PassState × Option Exc :=
  if e.isException then
    match strOfExc e with
    | .error e2 => (st, some e2)
    | .ok _ => read_from_local_cache_file env st
  else (st, some e)

/-- `_read_from_server` (lines 260-271): one complete synchronization pass. -/
def read_from_server (env : Env) (appId : String) (st : PassState) :
    PassState × Option Exc :=
  match get_namespaces env with
  | .error e => serverExcHandler env e st
  | .ok nm =>
      match runNamespaceLoop env appId (nm.map Prod.fst)
          { st with notification_map := nm } with
      | (st1, none) => (st1, none)
      | (st1, some e) => serverExcHandler env e st1

/-- The `try` body of `get_value` (lines 170-174): look the namespace up in
`self._cache`; when present, `snapshot.get(key, default_val)` — which raises
`AttributeError` when the stored snapshot is not a dict; when absent, return
the default. -/
def getValueBody (cache : List (JVal × JVal)) (key : String) (default_val : JVal)
    (ns : String) : Except Exc JVal :=
  match pyGet cache (.str ns) with
  | some (.obj m) => .ok (jGetD m key default_val)
  | some _ => .error .attributeError
  | none => .ok default_val

/-- `get_value` (lines 162-176): the body wrapped in `except BasicException`,
which returns the default for the two custom exceptions only; any other
exception propagates to the caller. -/
def get_value (cache : List (JVal × JVal)) (key : String) (default_val : JVal)
    (ns : String) : Except Exc JVal :=
  match getValueBody cache key default_val ns with
  | .error e => if e.isBasicException then .ok default_val else .error e
  | .ok v => .ok v

/-! Concrete fixtures used by counterexamples and witnesses.  Each `loads`
field is a finite stand-in for Python's `json.loads`, agreeing with it on the
strings the respective scenario feeds it. -/

/-- A fresh client state: empty cache, hash, notification map and cache
directory. -/
def stEmpty : PassState := ⟨[], [], [], ⟨[], 0⟩⟩

/-- A `json.loads` stand-in failing on every input, for scenarios in which
no string is ever parsed or in which each parse attempt hits malformed
content. -/
def loadsNone : String → Except Exc JVal := fun _ => .error .jsonDecodeError

/-- Environment for the C1 scenario: every release request yields HTTP 500. -/
def envC1 : Env := ⟨loadsNone, .resp 500 (.ok .null), fun _ => .resp 500 (.ok .null), "1700000000.0"⟩

/-- State for the C1 scenario: a previously good snapshot for "application",
no cache file on disk. -/
def stC1 : PassState := ⟨[(.str "application", .obj [("k", .str "v")])], [], [], ⟨[], 0⟩⟩

/-- Environment for the C2 scenario: the namespace-listing request times out
and the Telnet probe's connection is refused, so `_http_get` raises
`ServerNotResponseException`. -/
def envC2 : Env := ⟨loadsNone, .timeoutThenProbe .refused, fun _ => .resp 500 (.ok .null), "1700000000.0"⟩

/-- Environment for the C3 scenario: the namespace-listing request raises a
`requests.exceptions.ConnectionError`. -/
def envC3 : Env := ⟨loadsNone, .raised .connectionError, fun _ => .resp 500 (.ok .null), "1700000000.0"⟩

/-- Cache for the C4 scenario: the snapshot stored for "application" is a
JSON array, as results from a release whose `configurations` string decodes
to a list (e.g. `"[]"`). -/
def cacheC4 : List (JVal × JVal) := [(.str "application", .arr [])]

/-- Environment for the C5 scenario: discovery returns namespaces "nsa" and
"nsb"; the release request for "nsa" yields HTTP 500, the one for "nsb"
succeeds with configurations `{"x":"1"}` and release key "r1"; `json.loads`
accepts exactly that configurations string. -/
def envC5 : Env :=
  ⟨fun s => if s = "\x7b\"x\":\"1\"\x7d" then .ok (.obj [("x", .str "1")]) else .error .jsonDecodeError,
   .resp 200 (.ok (.arr [.obj [("namespaceName", .str "nsa"), ("id", .num 1)],
                         .obj [("namespaceName", .str "nsb"), ("id", .num 2)]])),
   fun ns => if jvalEq ns (.str "nsb")
             then .resp 200 (.ok (.obj [("configurations", .str "\x7b\"x\":\"1\"\x7d"),
                                        ("releaseKey", .str "r1")]))
             else .resp 500 (.ok .null),
   "1700000000.0"⟩

/-- State for the C5 scenario: the persisted record for "nsa" holds malformed
content. -/
def stC5 : PassState := ⟨[], [], [], ⟨[("app_configuration_nsa.txt", "bad")], 0⟩⟩

/-- Environment for the C7 scenario: `json.loads` accepts only `"\x7b\x7d"`
(the empty JSON object). -/
def envC7 : Env :=
  ⟨fun s => if s = "\x7b\x7d" then .ok (.obj []) else .error .jsonDecodeError,
   .resp 500 (.ok .null), fun _ => .resp 500 (.ok .null), "1700000000.0"⟩

/-- State for the C7 scenario: the cache directory holds a malformed record
for "nsa" followed by a well-formed record for "nsb". -/
def stC7 : PassState :=
  ⟨[], [], [], ⟨[("app_configuration_nsa.txt", "bad"),
                 ("app_configuration_nsb.txt", "\x7b\x7d")], 0⟩⟩

/-- File system for the C8 scenario: the persisted record for "application"
holds malformed content. -/
def fsC8 : FileSys := ⟨[("app_configuration_application.txt", "not json")], 0⟩

/-- The C9 configurations string: a valid JSON document that contains a
newline between tokens (`json.loads` accepts the whole string, but rejects
its first line). -/
def sC9 : String := "\x7b\"a\":\n\"b\"\x7d"

/-- Environment for the C9 scenario: the release request for "application"
succeeds carrying `sC9`; `json.loads` accepts exactly `sC9`. -/
def envC9 : Env :=
  ⟨fun t => if t = sC9 then .ok (.obj [("a", .str "b")]) else .error .jsonDecodeError,
   .resp 500 (.ok .null),
   fun ns => if jvalEq ns (.str "application")
             then .resp 200 (.ok (.obj [("configurations", .str sC9),
                                        ("releaseKey", .str "r1")]))
             else .resp 500 (.ok .null),
   "1700000000.0"⟩

/-- The single-line counterpart of `sC9`, for the C9 witness. -/
def sC9w : String := "\x7b\"a\":\"b\"\x7d"

/-- Environment like `envC9` but carrying the newline-free configurations
string `sC9w`. -/
def envC9w : Env :=
  ⟨fun t => if t = sC9w then .ok (.obj [("a", .str "b")]) else .error .jsonDecodeError,
   .resp 500 (.ok .null),
   fun ns => if jvalEq ns (.str "application")
             then .resp 200 (.ok (.obj [("configurations", .str sC9w),
                                        ("releaseKey", .str "r1")]))
             else .resp 500 (.ok .null),
   "1700000000.0"⟩

/-! Helper lemmas about the embedded primitives. -/

lemma jvalEq_str (a b : String) : jvalEq (.str a) (.str b) = (a == b) := by
  simp [jvalEq]

lemma jvalEq_str_self (s : String) : jvalEq (.str s) (.str s) = true := by
  simp [jvalEq]

lemma pyGet_pyUpdate_self (m : List (JVal × JVal)) (k v : JVal)
    (hk : jvalEq k k = true) : pyGet (pyUpdate m k v) k = some v := by
  induction m with
  | nil => simp [pyUpdate, pyGet, hk]
  | cons hd tl ih =>
      obtain ⟨k0, w⟩ := hd
      by_cases h0 : jvalEq k0 k = true
      · simp [pyUpdate, pyGet, h0, hk]
      · simp [pyUpdate, pyGet, h0, ih]

lemma lookupFile_writeEntry_self (l : List (String × String)) (name c : String) :
    lookupFile (writeEntry l name c) name = some c := by
  induction l with
  | nil => simp [writeEntry, lookupFile]
  | cons hd tl ih =>
      obtain ⟨n0, c0⟩ := hd
      by_cases h0 : n0 = name
      · simp [writeEntry, lookupFile, h0]
      · simp [writeEntry, lookupFile, h0, ih]

lemma strOfExc_ok_of_not_basic (e : Exc) (h : e.isBasicException = false) :
    strOfExc e = .ok "err" := by
  cases e <;> simp_all [Exc.isBasicException, strOfExc]

lemma takeLine_eq_self (l : List Char) (h : '\n' ∉ l) : takeLine l = l := by
  induction l with
  | nil => rfl
  | cons c cs ih =>
      have hc : ¬ c = '\n' := fun hh => h (hh ▸ List.mem_cons_self c cs)
      have hcs : '\n' ∉ cs := fun hh => h (List.mem_cons_of_mem c hh)
      simp [takeLine, hc, ih hcs]

lemma readline_eq_self (s : String) (h : '\n' ∉ s.toList) : readline s = s := by
  show String.mk (takeLine s.toList) = s
  rw [takeLine_eq_self s.toList h]
  rfl

lemma readAllLoop_append (env : Env) (l1 l2 : List (String × String))
    (c : List (JVal × JVal)) :
    readAllLoop env (l1 ++ l2) c
      = match readAllLoop env l1 c with
        | (c1, none) => readAllLoop env l2 c1
        | (c1, some e) => (c1, some e) := by
  induction l1 generalizing c with
  | nil => simp [readAllLoop]
  | cons hd tl ih =>
      obtain ⟨name, content⟩ := hd
      by_cases hswp : (splitext name).2 = ".swp"
      · simpa [readAllLoop, hswp] using ih c
      · cases hl : env.loads content with
        | ok v => simpa [readAllLoop, hswp, hl] using ih _
        | error e => simp [readAllLoop, hswp, hl]

lemma toList_append (a b : String) : (a ++ b).toList = a.toList ++ b.toList := rfl

lemma takeWhile_append_stop {p : Char → Bool} (l r : List Char) (c : Char)
    (hc : p c = false) : (l ++ c :: r).takeWhile p = l.takeWhile p := by
  induction l with
  | nil => simp [List.takeWhile_cons, hc]
  | cons a as ih =>
      by_cases ha : p a = true
      · simp [List.takeWhile_cons, ha, ih]
      · simp [List.takeWhile_cons, ha]

lemma takeWhile_all {p : Char → Bool} (l : List Char) (h : ∀ c ∈ l, p c = true) :
    l.takeWhile p = l := by
  induction l with
  | nil => rfl
  | cons c cs ih =>
      simp [List.takeWhile_cons, h c (List.mem_cons_self c cs),
            ih fun d hd => h d (List.mem_cons_of_mem c hd)]

lemma splitext_txt (stem : String) (h : stem.toList.any (fun c => c ≠ '.') = true) :
    splitext (stem ++ ".txt") = (stem, ".txt") := by
  have hdata : (stem ++ ".txt").toList = stem.toList ++ ['.', 't', 'x', 't'] := rfl
  have htw : (stem.toList ++ ['.', 't', 'x', 't']).reverse.takeWhile
      (fun c => decide (c ≠ '.')) = ['t', 'x', 't'] := by
    rw [List.reverse_append]
    simp [List.takeWhile_cons]
  have hlen : (stem.toList ++ ['.', 't', 'x', 't']).length = stem.toList.length + 4 := by
    simp
  have hidx : splitextIdx (stem.toList ++ ['.', 't', 'x', 't']) = stem.toList.length := by
    unfold splitextIdx
    rw [htw, hlen]
    simp
  unfold splitext
  rw [hdata, htw, hlen, hidx]
  rw [if_neg (by simp only [List.length_cons, List.length_nil]; omega :
        ¬ ((['t', 'x', 't'] : List Char).length = stem.toList.length + 4))]
  rw [List.take_left, List.drop_left, if_pos h]
  rfl

lemma lastTok_glue (appId ns : String) :
    lastTok ((appId ++ "_configuration_") ++ ns) = lastTok ns := by
  have hg : "_configuration_" = "_configuration" ++ "_" := rfl
  have hrev : ((appId ++ "_configuration_") ++ ns).toList.reverse
      = ns.toList.reverse
          ++ '_' :: ("_configuration".toList.reverse ++ appId.toList.reverse) := by
    rw [hg, toList_append, toList_append, toList_append]
    simp [List.reverse_append]
  unfold lastTok
  rw [hrev, takeWhile_append_stop _ _ '_' (by decide)]

lemma lastTok_no_underscore (ns : String) (h : '_' ∉ ns.toList) : lastTok ns = ns := by
  unfold lastTok
  have hall : ∀ c ∈ ns.toList.reverse, decide (c ≠ '_') = true := by
    intro c hc
    have hmem : c ∈ ns.toList := List.mem_reverse.mp hc
    simp only [decide_eq_true_eq]
    exact fun hh => h (hh ▸ hmem)
  rw [takeWhile_all _ hall, List.reverse_reverse]
  rfl

lemma get_config_non200_nofile (env : Env) (appId : String) (ns : JVal)
    (st : PassState) (status : Nat) (b : Except Exc JVal)
    (hreq : env.releaseReq ns = .resp status b) (hstatus : status ≠ 200)
    (hnofile : lookupFile st.fs.files (cacheFileName appId ns) = none) :
    get_config_by_namespace env appId ns st
      = ({ st with cache := pyUpdate st.cache ns (.obj []) }, none) := by
  simp [get_config_by_namespace, get_config_body, hreq, http_get, hstatus,
        get_local_cache_by_namespace, hnofile]

lemma get_config_success (env : Env) (appId : String) (ns : JVal) (st : PassState)
    (cb rk : String) (snap : JVal)
    (hreq : env.releaseReq ns
      = .resp 200 (.ok (.obj [("configurations", .str cb), ("releaseKey", .str rk)])))
    (hloads : env.loads cb = .ok snap) :
    ∃ h2 fs2, get_config_by_namespace env appId ns st
      = ({ st with cache := pyUpdate st.cache ns snap, hash := h2, fs := fs2 }, none) := by
  cases hgate : jvalEq (pyGetD st.hash ns .null) (.str rk) with
  | true =>
      refine ⟨st.hash, st.fs, ?_⟩
      simp [get_config_by_namespace, get_config_body, hreq, http_get, loadsJson,
            jGetD, jGet, hloads, update_local_cache, hgate]
  | false =>
      refine ⟨pyUpdate st.hash ns (.str rk),
              writeFile st.fs (cacheFileName appId ns) cb, ?_⟩
      simp [get_config_by_namespace, get_config_body, hreq, http_get, loadsJson,
            jGetD, jGet, hloads, update_local_cache, hgate]

/-! Claim theorems. -/

/-- C1, counterexample.  In `stC1` the namespace "application" holds a good
snapshot and no persisted record exists; the release fetch in `envC1` yields
HTTP 500.  After the fetch, the ConfigCache entry has been replaced by the
empty snapshot: it is not left unchanged as the claim states. -/
theorem c1_counterexample :
    lookupFile stC1.fs.files (cacheFileName "app" (.str "application")) = none ∧
    pyGet stC1.cache (.str "application") = some (.obj [("k", .str "v")]) ∧
    get_config_by_namespace envC1 "app" (.str "application") stC1
      = ({ stC1 with cache := [(.str "application", .obj [])] }, none) :=
  ⟨rfl, rfl, rfl⟩

/-- C1, amended: when the release fetch for a namespace fails — a delivered
non-200 response, or a raised exception other than the two custom
`BasicException`s — and no persisted record exists for it, the ConfigCache
entry for that namespace is *replaced by the empty snapshot* `{}` (the
empty-dict sentinel returned by the local-cache read), wiping any previously
good in-memory snapshot. -/
theorem c1_amended (env : Env) (appId ns : String) (st : PassState)
    (hnofile : lookupFile st.fs.files (cacheFileName appId (.str ns)) = none) :
    (∀ status b, env.releaseReq (.str ns) = .resp status b → status ≠ 200 →
        get_config_by_namespace env appId (.str ns) st
          = ({ st with cache := pyUpdate st.cache (.str ns) (.obj []) }, none)) ∧
    (∀ e, env.releaseReq (.str ns) = .raised e → e.isBasicException = false →
        get_config_by_namespace env appId (.str ns) st
          = ({ st with cache := pyUpdate st.cache (.str ns) (.obj []) }, none)) := by
  constructor
  · intro status b hreq hstatus
    simp [get_config_by_namespace, get_config_body, hreq, http_get, hstatus,
          get_local_cache_by_namespace, hnofile]
  · intro e hreq hbasic
    simp [get_config_by_namespace, get_config_body, hreq, http_get,
          strOfExc_ok_of_not_basic e hbasic,
          get_local_cache_by_namespace, hnofile]

/-- C1 amended, witness at the concrete C1 scenario. -/
theorem c1_amended_witness :
    lookupFile stC1.fs.files (cacheFileName "app" (.str "application")) = none ∧
    envC1.releaseReq (.str "application") = .resp 500 (.ok .null) ∧
    get_config_by_namespace envC1 "app" (.str "application") stC1
      = ({ stC1 with cache := pyUpdate stC1.cache (.str "application") (.obj []) }, none) :=
  ⟨rfl, rfl, (c1_amended envC1 "app" "application" stC1 rfl).1 500 (.ok .null) rfl (by decide)⟩

/-- C2: the code contradicts the claim.  When the namespace-listing request
read-times-out and the probe's connection is refused, `_http_get` raises
`ServerNotResponseException`, which derives from `BaseException` but not
`Exception` (exceptions.py line 5), so the `except Exception` in
`_read_from_server` does not catch it: the pass propagates the exception to
its caller instead of falling back to `_read_from_local_cache_file`. -/
theorem c2_code_bug_eval :
    read_from_server envC2 "app" stEmpty = (stEmpty, some .serverNotResponse) ∧
    Exc.serverNotResponse.isException = false ∧
    Exc.serverNotResponse.isBasicException = true :=
  ⟨rfl, rfl, rfl⟩

/-- C3, counterexample.  A transport failure (`ConnectionError`) on the
namespace-listing request propagates out of `_get_namespaces` — the method
has no exception handler — rather than yielding the sentinel set. -/
theorem c3_counterexample :
    get_namespaces envC3 = .error .connectionError ∧
    get_namespaces envC3 ≠ .ok [(.str "application", .num (-1))] :=
  ⟨rfl, fun h => Except.noConfusion h⟩

/-- C3, amended: only a *delivered* non-success response yields the sentinel
`{"application": -1}`; every transport failure — a raised requests exception,
or the timeout-classified `ServerNotResponseException` /
`NameSpaceNotFoundException` raised inside `_http_get` — propagates out of
`_get_namespaces` as an exception. -/
theorem c3_amended (env : Env) :
    (∀ status b, env.listReq = .resp status b → status ≠ 200 →
        get_namespaces env = .ok [(.str "application", .num (-1))]) ∧
    (∀ e, env.listReq = .raised e → get_namespaces env = .error e) ∧
    (env.listReq = .timeoutThenProbe .refused →
        get_namespaces env = .error .serverNotResponse) ∧
    (env.listReq = .timeoutThenProbe .connected →
        get_namespaces env = .error .nameSpaceNotFound) := by
  refine ⟨?_, ?_, ?_, ?_⟩ <;> (intros; simp [get_namespaces, http_get, *])

/-- C3 amended, witness at the concrete C3 scenario and at a non-200
delivered response. -/
theorem c3_amended_witness :
    envC3.listReq = .raised .connectionError ∧
    get_namespaces envC3 = .error .connectionError ∧
    envC1.listReq = .resp 500 (.ok .null) ∧
    get_namespaces envC1 = .ok [(.str "application", .num (-1))] :=
  ⟨rfl, (c3_amended envC3).2.1 .connectionError rfl, rfl,
   (c3_amended envC1).1 500 (.ok .null) rfl (by decide)⟩

/-- C4, counterexample.  When the snapshot stored for a namespace is a JSON
array — as results from a release whose configurations string decodes to a
list — `snapshot.get` raises `AttributeError`, which `except BasicException`
does not catch: `get_value` raises instead of returning the default. -/
theorem c4_counterexample :
    get_value cacheC4 "k" .null "application" = .error .attributeError ∧
    Exc.attributeError.isBasicException = false :=
  ⟨rfl, rfl⟩

/-- C4, amended: `get_value` returns the stored value when the namespace is
present with a dict snapshot containing the key, the default when the key is
absent from such a snapshot or the namespace is absent from the cache; it
never raises *provided every cached snapshot is a JSON object* — for a
non-object snapshot, `.get` raises `AttributeError`, which the
`except BasicException` clause does not catch. -/
theorem c4_amended (cache : List (JVal × JVal)) (key : String) (d : JVal) (ns : String) :
    (∀ m v, pyGet cache (.str ns) = some (.obj m) → jGet m key = some v →
        get_value cache key d ns = .ok v) ∧
    (∀ m, pyGet cache (.str ns) = some (.obj m) → jGet m key = none →
        get_value cache key d ns = .ok d) ∧
    (pyGet cache (.str ns) = none → get_value cache key d ns = .ok d) := by
  refine ⟨?_, ?_, ?_⟩
  · intro m v hm hk; simp [get_value, getValueBody, jGetD, hm, hk]
  · intro m hm hk; simp [get_value, getValueBody, jGetD, hm, hk]
  · intro h; simp [get_value, getValueBody, h]

/-- C4 amended, witness: a present key, an absent key, and an absent
namespace. -/
theorem c4_amended_witness :
    pyGet [(JVal.str "application", JVal.obj [("k", JVal.str "v")])] (.str "application")
      = some (.obj [("k", .str "v")]) ∧
    jGet [("k", JVal.str "v")] "k" = some (.str "v") ∧
    get_value [(JVal.str "application", JVal.obj [("k", JVal.str "v")])] "k"
      (.str "d") "application" = .ok (.str "v") ∧
    get_value [(JVal.str "application", JVal.obj [("k", JVal.str "v")])] "missing"
      (.str "d") "application" = .ok (.str "d") ∧
    get_value [] "k" (JVal.str "d") "application" = .ok (.str "d") :=
  ⟨rfl, rfl,
   (c4_amended [(JVal.str "application", JVal.obj [("k", JVal.str "v")])] "k"
      (.str "d") "application").1 [("k", JVal.str "v")] (.str "v") rfl rfl,
   (c4_amended [(JVal.str "application", JVal.obj [("k", JVal.str "v")])] "missing"
      (.str "d") "application").2.1 [("k", JVal.str "v")] rfl rfl,
   (c4_amended [] "k" (.str "d") "application").2.2 rfl⟩

/-- C6: the local-cache write is release-key gated and idempotent.  When the
incoming release key differs from the last one recorded for the namespace,
the write happens (exactly one disk write) and the key is recorded; invoking
the method again with the same release key (and any data) on the resulting
state performs no disk write and leaves everything unchanged. -/
theorem c6_release_key_gating (appId rk s ns : String)
    (hash : List (JVal × JVal)) (fs : FileSys)
    (hgate : jvalEq (pyGetD hash (.str ns) .null) (.str rk) = false) :
    update_local_cache appId (.str rk) (.str s) (.str ns) hash fs
      = (pyUpdate hash (.str ns) (.str rk),
         writeFile fs (cacheFileName appId (.str ns)) s, none) ∧
    (writeFile fs (cacheFileName appId (.str ns)) s).writeCount = fs.writeCount + 1 ∧
    update_local_cache appId (.str rk) (.str s) (.str ns)
        (pyUpdate hash (.str ns) (.str rk)) (writeFile fs (cacheFileName appId (.str ns)) s)
      = (pyUpdate hash (.str ns) (.str rk),
         writeFile fs (cacheFileName appId (.str ns)) s, none) := by
  refine ⟨?_, rfl, ?_⟩
  · simp [update_local_cache, hgate]
  · have h := pyGet_pyUpdate_self hash (.str ns) (.str rk) (jvalEq_str_self ns)
    simp [update_local_cache, pyGetD, h, jvalEq_str_self]

/-- C6, witness: a fresh hash and directory; the first write happens, the
repeated write is a no-op. -/
theorem c6_witness :
    jvalEq (pyGetD [] (.str "application") .null) (.str "r1") = false ∧
    update_local_cache "app" (.str "r1") (.str "\x7b\x7d") (.str "application") [] ⟨[], 0⟩
      = ([(JVal.str "application", JVal.str "r1")],
         ⟨[("app_configuration_application.txt", "\x7b\x7d")], 1⟩, none) ∧
    update_local_cache "app" (.str "r1") (.str "\x7b\x7d") (.str "application")
        [(JVal.str "application", JVal.str "r1")]
        ⟨[("app_configuration_application.txt", "\x7b\x7d")], 1⟩
      = ([(JVal.str "application", JVal.str "r1")],
         ⟨[("app_configuration_application.txt", "\x7b\x7d")], 1⟩, none) :=
  ⟨rfl, ((c6_release_key_gating "app" "r1" "\x7b\x7d" "application" [] ⟨[], 0⟩ rfl).1),
   ((c6_release_key_gating "app" "r1" "\x7b\x7d" "application" [] ⟨[], 0⟩ rfl).2.2)⟩

/-- C7, counterexample.  The cache directory of `stC7` holds a malformed
record followed by a well-formed one; the scan raises `JSONDecodeError` (the
method has no handler) and the later well-formed record is never loaded, so
the scan neither completes nor loads every well-formed record. -/
theorem c7_counterexample :
    (read_from_local_cache_file envC7 stC7).2 = some .jsonDecodeError ∧
    pyGet (read_from_local_cache_file envC7 stC7).1.cache (.str "nsb") = none ∧
    envC7.loads "\x7b\x7d" = .ok (.obj []) :=
  ⟨rfl, rfl, rfl⟩

/-- C7, amended: malformed persisted records are *not* skipped — the scan of
`_read_from_local_cache_file` raises the parse error at the first malformed
non-`.swp` record; records earlier in directory order are loaded into the
ConfigCache, records after the malformed one are not. -/
theorem c7_amended (env : Env) (st : PassState) (pre post : List (String × String))
    (name content : String) (c1 : List (JVal × JVal)) (e : Exc)
    (hfiles : st.fs.files = pre ++ (name, content) :: post)
    (hpre : readAllLoop env pre st.cache = (c1, none))
    (hext : (splitext name).2 ≠ ".swp")
    (hbad : env.loads content = .error e) :
    read_from_local_cache_file env st = ({ st with cache := c1 }, some e) := by
  have happ := readAllLoop_append env pre ((name, content) :: post) st.cache
  rw [hpre] at happ
  simp [read_from_local_cache_file, hfiles, happ, hext, hbad, readAllLoop]

/-- C7 amended, witness at the concrete C7 scenario (empty prefix, one
well-formed record after the malformed one). -/
theorem c7_amended_witness :
    stC7.fs.files = [] ++ ("app_configuration_nsa.txt", "bad")
        :: [("app_configuration_nsb.txt", "\x7b\x7d")] ∧
    readAllLoop envC7 [] stC7.cache = ([], none) ∧
    (splitext "app_configuration_nsa.txt").2 ≠ ".swp" ∧
    envC7.loads "bad" = .error .jsonDecodeError ∧
    read_from_local_cache_file envC7 stC7 = ({ stC7 with cache := [] }, some .jsonDecodeError) :=
  ⟨rfl, rfl, by decide, rfl,
   c7_amended envC7 stC7 [] [("app_configuration_nsb.txt", "\x7b\x7d")]
     "app_configuration_nsa.txt" "bad" [] .jsonDecodeError rfl rfl (by decide) rfl⟩

/-- C8, counterexample.  The persisted record for "application" exists but is
unparseable: `_get_local_cache_by_namespace` propagates the parse error to
its caller instead of signalling NotFound (the empty dict). -/
theorem c8_counterexample :
    lookupFile fsC8.files (cacheFileName "app" (.str "application")) = some "not json" ∧
    get_local_cache_by_namespace envC7 "app" fsC8 (.str "application")
      = .error .jsonDecodeError :=
  ⟨rfl, rfl⟩

/-- C8, amended: only a *missing* file yields the namespace-absent outcome
(the empty dict); when the file exists, the method returns exactly what
`json.loads` makes of the file's first line — in particular a parse error on
unparseable content propagates to the caller. -/
theorem c8_amended (env : Env) (appId : String) (fs : FileSys) (ns : JVal) :
    (lookupFile fs.files (cacheFileName appId ns) = none →
        get_local_cache_by_namespace env appId fs ns = .ok (.obj [])) ∧
    (∀ content, lookupFile fs.files (cacheFileName appId ns) = some content →
        get_local_cache_by_namespace env appId fs ns = env.loads (readline content)) := by
  constructor
  · intro h; simp [get_local_cache_by_namespace, h]
  · intro content h; simp [get_local_cache_by_namespace, h]

/-- C5, counterexample.  Discovery returns "nsa" and "nsb"; "nsa"'s fetch
fails with HTTP 500 and its persisted record is malformed, so the fallback
read inside the `except BaseException` handler raises `JSONDecodeError`,
which escapes `_get_config_by_namespace` and aborts the per-namespace loop:
"nsb"'s fetch — which would have succeeded — never runs, and the whole pass
ends with the exception re-raised from the recovery scan. -/
theorem c5_counterexample :
    envC5.releaseReq (.str "nsb")
      = .resp 200 (.ok (.obj [("configurations", .str "\x7b\"x\":\"1\"\x7d"),
                              ("releaseKey", .str "r1")])) ∧
    envC5.loads "\x7b\"x\":\"1\"\x7d" = .ok (.obj [("x", .str "1")]) ∧
    (read_from_server envC5 "app" stC5).2 = some .jsonDecodeError ∧
    pyGet (read_from_server envC5 "app" stC5).1.cache (.str "nsb") = none :=
  ⟨rfl, rfl, rfl, rfl⟩

/-- C5, amended: per-namespace isolation holds only for failures whose
fallback handling completes without raising.  If namespace A's fetch fails
with a delivered non-200 response and A has no persisted record (so the
fallback read returns the empty dict rather than raising), then namespace
B's fetch in the same pass completes and updates B's ConfigCache entry.
(When A's fallback read raises — malformed record — or A's failure is one of
the timeout-classified `BasicException`s, whose `str()` raises, the
exception escapes and aborts the loop before B is fetched.) -/
theorem c5_amended (env : Env) (appId : String) (st : PassState)
    (A B cb rk : String) (ida idb bA snapB : JVal) (statusA : Nat)
    (hlist : env.listReq
      = .resp 200 (.ok (.arr [.obj [("namespaceName", .str A), ("id", ida)],
                              .obj [("namespaceName", .str B), ("id", idb)]])))
    (hAB : A ≠ B)
    (hfA : env.releaseReq (.str A) = .resp statusA (.ok bA))
    (hsA : statusA ≠ 200)
    (hnofileA : lookupFile st.fs.files (cacheFileName appId (.str A)) = none)
    (hfB : env.releaseReq (.str B)
      = .resp 200 (.ok (.obj [("configurations", .str cb), ("releaseKey", .str rk)])))
    (hloads : env.loads cb = .ok snapB) :
    (read_from_server env appId st).2 = none ∧
    pyGet (read_from_server env appId st).1.cache (.str B) = some snapB := by
  have hsAB : jvalEq (.str A) (.str B) = false := by
    simp [jvalEq_str, hAB]
  have hns : get_namespaces env = .ok [(.str A, ida), (.str B, idb)] := by
    simp [get_namespaces, hlist, http_get, iterElems, nsMapFold, jGetD, jGet,
          pyUpdate, hsAB]
  have hA := get_config_non200_nofile env appId (.str A)
      { st with notification_map := [(.str A, ida), (.str B, idb)] }
      statusA (.ok bA) hfA hsA hnofileA
  obtain ⟨h2, fs2, hB⟩ := get_config_success env appId (.str B)
      { st with notification_map := [(.str A, ida), (.str B, idb)],
                cache := pyUpdate st.cache (.str A) (.obj []) } cb rk snapB hfB hloads
  have hrun : read_from_server env appId st
      = ({ st with notification_map := [(.str A, ida), (.str B, idb)],
                   cache := pyUpdate (pyUpdate st.cache (.str A) (.obj []))
                              (.str B) snapB,
                   hash := h2, fs := fs2 }, none) := by
    simp [read_from_server, hns, runNamespaceLoop, hA, hB]
  rw [hrun]
  exact ⟨rfl, pyGet_pyUpdate_self _ _ _ (jvalEq_str_self B)⟩

/-- C5 amended, witness at the concrete C5 environment with an empty cache
directory (namespace "nsa" has no persisted record). -/
theorem c5_amended_witness :
    envC5.listReq
      = .resp 200 (.ok (.arr [.obj [("namespaceName", .str "nsa"), ("id", .num 1)],
                              .obj [("namespaceName", .str "nsb"), ("id", .num 2)]])) ∧
    envC5.releaseReq (.str "nsa") = .resp 500 (.ok .null) ∧
    lookupFile stEmpty.fs.files (cacheFileName "app" (.str "nsa")) = none ∧
    (read_from_server envC5 "app" stEmpty).2 = none ∧
    pyGet (read_from_server envC5 "app" stEmpty).1.cache (.str "nsb")
      = some (.obj [("x", .str "1")]) :=
  ⟨rfl, rfl, rfl,
   (c5_amended envC5 "app" stEmpty "nsa" "nsb" "\x7b\"x\":\"1\"\x7d" "r1"
     (.num 1) (.num 2) .null (.obj [("x", .str "1")]) 500
     rfl (by decide) rfl (by decide) rfl rfl rfl).1,
   (c5_amended envC5 "app" stEmpty "nsa" "nsb" "\x7b\"x\":\"1\"\x7d" "r1"
     (.num 1) (.num 2) .null (.obj [("x", .str "1")]) 500
     rfl (by decide) rfl (by decide) rfl rfl rfl).2⟩

/-- C9, counterexample.  The configurations string `sC9` is valid JSON but
contains a newline.  The fetch stores its decoded value in the ConfigCache
and persists the raw string, but the subsequent local read parses only the
file's first line (`f.readline()`) and raises `JSONDecodeError` instead of
returning `json.loads(sC9)`. -/
theorem c9_counterexample :
    envC9.loads sC9 = .ok (.obj [("a", .str "b")]) ∧
    pyGet (get_config_by_namespace envC9 "app" (.str "application") stEmpty).1.cache
        (.str "application") = some (.obj [("a", .str "b")]) ∧
    lookupFile (get_config_by_namespace envC9 "app" (.str "application") stEmpty).1.fs.files
        (cacheFileName "app" (.str "application")) = some sC9 ∧
    get_local_cache_by_namespace envC9 "app"
        (get_config_by_namespace envC9 "app" (.str "application") stEmpty).1.fs
        (.str "application") = .error .jsonDecodeError :=
  ⟨rfl, rfl, rfl, rfl⟩

/-- C9, amended: the write/read round-trip holds for a successful fetch whose
configurations string `s` decodes successfully, *contains no newline* (the
local read uses `f.readline()`, so only the first line of the persisted file
is parsed), and whose release key differs from the last one recorded (so the
write-through actually writes): afterwards the local-cache read returns
`json.loads(s)`, which is exactly the snapshot stored in the ConfigCache. -/
theorem c9_amended (env : Env) (appId ns cb rk : String) (v : JVal) (st : PassState)
    (hreq : env.releaseReq (.str ns)
      = .resp 200 (.ok (.obj [("configurations", .str cb), ("releaseKey", .str rk)])))
    (hloads : env.loads cb = .ok v)
    (hnl : '\n' ∉ cb.toList)
    (hgate : jvalEq (pyGetD st.hash (.str ns) .null) (.str rk) = false) :
    (get_config_by_namespace env appId (.str ns) st).2 = none ∧
    pyGet (get_config_by_namespace env appId (.str ns) st).1.cache (.str ns) = some v ∧
    get_local_cache_by_namespace env appId
        (get_config_by_namespace env appId (.str ns) st).1.fs (.str ns) = .ok v := by
  have hcfg : get_config_by_namespace env appId (.str ns) st
      = ({ st with cache := pyUpdate st.cache (.str ns) v,
                   hash := pyUpdate st.hash (.str ns) (.str rk),
                   fs := writeFile st.fs (cacheFileName appId (.str ns)) cb }, none) := by
    simp [get_config_by_namespace, get_config_body, hreq, http_get, loadsJson,
          jGetD, jGet, hloads, update_local_cache, hgate]
  rw [hcfg]
  refine ⟨rfl, pyGet_pyUpdate_self _ _ _ (jvalEq_str_self ns), ?_⟩
  simp [get_local_cache_by_namespace, writeFile, lookupFile_writeEntry_self,
        readline_eq_self cb hnl, hloads]

/-- C9 amended, witness with the newline-free configurations string `sC9w`. -/
theorem c9_amended_witness :
    envC9w.releaseReq (.str "application")
      = .resp 200 (.ok (.obj [("configurations", .str sC9w), ("releaseKey", .str "r1")])) ∧
    envC9w.loads sC9w = .ok (.obj [("a", .str "b")]) ∧
    '\n' ∉ sC9w.toList ∧
    jvalEq (pyGetD stEmpty.hash (.str "application") .null) (.str "r1") = false ∧
    (get_config_by_namespace envC9w "app" (.str "application") stEmpty).2 = none ∧
    pyGet (get_config_by_namespace envC9w "app" (.str "application") stEmpty).1.cache
        (.str "application") = some (.obj [("a", .str "b")]) ∧
    get_local_cache_by_namespace envC9w "app"
        (get_config_by_namespace envC9w "app" (.str "application") stEmpty).1.fs
        (.str "application") = .ok (.obj [("a", .str "b")]) :=
  ⟨rfl, rfl, by decide, rfl,
   (c9_amended envC9w "app" "application" sC9w "r1" (.obj [("a", .str "b")]) stEmpty
     rfl rfl (by decide) rfl).1,
   (c9_amended envC9w "app" "application" sC9w "r1" (.obj [("a", .str "b")]) stEmpty
     rfl rfl (by decide) rfl).2.1,
   (c9_amended envC9w "app" "application" sC9w "r1" (.obj [("a", .str "b")]) stEmpty
     rfl rfl (by decide) rfl).2.2⟩

/-- C10: cold-start recovery restores a record written by
`_update_local_cache` under the key `split("_")[-1]` of the file stem.  For
any appId and namespace, a write into an empty cache directory followed by
the full scan loads the persisted snapshot under the key `lastTok ns` — the
final underscore-separated token of the namespace — and when the namespace
contains no underscore this key is the original namespace itself. -/
theorem c10_roundtrip (env : Env) (appId ns s rk : String) (v : JVal)
    (hash : List (JVal × JVal)) (st : PassState) (n : Nat)
    (hloads : env.loads s = .ok v)
    (hgate : jvalEq (pyGetD hash (.str ns) .null) (.str rk) = false) :
    update_local_cache appId (.str rk) (.str s) (.str ns) hash ⟨[], n⟩
      = (pyUpdate hash (.str ns) (.str rk),
         ⟨[(cacheFileName appId (.str ns), s)], n + 1⟩, none) ∧
    read_from_local_cache_file env
        { st with fs := ⟨[(cacheFileName appId (.str ns), s)], n + 1⟩ }
      = ({ st with cache := pyUpdate st.cache (.str (lastTok ns)) v,
                   fs := ⟨[(cacheFileName appId (.str ns), s)], n + 1⟩ }, none) ∧
    pyGet (pyUpdate st.cache (.str (lastTok ns)) v) (.str (lastTok ns)) = some v ∧
    ('_' ∉ ns.toList → lastTok ns = ns) := by
  have hstem : cacheFileName appId (.str ns) = ((appId ++ "_configuration_") ++ ns) ++ ".txt" := rfl
  have hany : (((appId ++ "_configuration_") ++ ns).toList.any (fun c => c ≠ '.')) = true := by
    rw [toList_append, toList_append]
    simp [List.any_append]
  have hsplit : splitext (cacheFileName appId (.str ns))
      = ((appId ++ "_configuration_") ++ ns, ".txt") := by
    rw [hstem]
    exact splitext_txt _ hany
  refine ⟨?_, ?_, pyGet_pyUpdate_self _ _ _ (jvalEq_str_self (lastTok ns)),
          lastTok_no_underscore ns⟩
  · simp [update_local_cache, hgate, writeFile, writeEntry]
  · simp [read_from_local_cache_file, readAllLoop, hsplit, hloads, lastTok_glue]

/-- C10, witness: appId "app", namespace "application" (no underscore), the
empty-object snapshot. -/
theorem c10_witness :
    envC7.loads "\x7b\x7d" = .ok (.obj []) ∧
    jvalEq (pyGetD [] (.str "application") .null) (.str "r1") = false ∧
    update_local_cache "app" (.str "r1") (.str "\x7b\x7d") (.str "application") [] ⟨[], 0⟩
      = (pyUpdate [] (.str "application") (.str "r1"),
         ⟨[(cacheFileName "app" (.str "application"), "\x7b\x7d")], 0 + 1⟩, none) ∧
    read_from_local_cache_file envC7
        { stEmpty with fs := ⟨[(cacheFileName "app" (.str "application"), "\x7b\x7d")], 0 + 1⟩ }
      = ({ stEmpty with
             cache := pyUpdate stEmpty.cache (.str (lastTok "application")) (.obj []),
             fs := ⟨[(cacheFileName "app" (.str "application"), "\x7b\x7d")], 0 + 1⟩ }, none) ∧
    lastTok "application" = "application" :=
  ⟨rfl, rfl,
   (c10_roundtrip envC7 "app" "application" "\x7b\x7d" "r1" (.obj []) [] stEmpty 0
     rfl rfl).1,
   (c10_roundtrip envC7 "app" "application" "\x7b\x7d" "r1" (.obj []) [] stEmpty 0
     rfl rfl).2.1,
   (c10_roundtrip envC7 "app" "application" "\x7b\x7d" "r1" (.obj []) [] stEmpty 0
     rfl rfl).2.2.2 (by decide)⟩

/-- C8 amended, witness: the missing-file case and the malformed-content
case. -/
theorem c8_amended_witness :
    lookupFile stEmpty.fs.files (cacheFileName "app" (.str "application")) = none ∧
    get_local_cache_by_namespace envC7 "app" stEmpty.fs (.str "application") = .ok (.obj []) ∧
    lookupFile fsC8.files (cacheFileName "app" (.str "application")) = some "not json" ∧
    get_local_cache_by_namespace envC7 "app" fsC8 (.str "application")
      = envC7.loads (readline "not json") :=
  ⟨rfl, (c8_amended envC7 "app" stEmpty.fs (.str "application")).1 rfl, rfl,
   (c8_amended envC7 "app" fsC8 (.str "application")).2 "not json" rfl⟩

end Pyapollo
